import Mathlib

/-!
Verification of the udata-hydra / udata-datalake-service repository against
its natural-language specification.  The Python source is shallowly embedded:
pure control flow becomes Lean functions, raised exceptions become `Except`,
HTTP responses become a `Resp` value, and database / network effects become
explicit values (lookup functions passed in, lists of emitted operations
returned).  Every definition mirrors one function of the source, except where
a doc comment starting with `Modelled from the spec:` marks code of the
repository that is not available and is reconstructed from the specification.
-/

namespace Hydra

/-- A row of the `checks` table, with the fields the embedded routes
inspect (`url`, `resource_id`, `created_at`, `deleted`); `created_at` is an
abstract timestamp. -/
structure CheckRec where
  url : String
  resource_id : String
  created_at : Nat
  deleted : Bool
  deriving Repr, DecidableEq

/-- The payload of `ResourceDocumentSchema`: the nested `document` of an
admin-API resource payload.  Only `url` is inspected by the embedded code. -/
structure ResourceDoc where
  url : String
  deriving Repr, DecidableEq

/-- A row of the catalog table, with the fields the embedded routes inspect. -/
structure ResourceRec where
  dataset_id : String
  resource_id : String
  url : String
  status : Option String
  priority : Bool
  deleted : Bool
  deriving Repr, DecidableEq

/-- Body of an HTTP response.  `jsonError msg` stands for the Python
`json.dumps` of a one-key object mapping "error" to `msg`;
`jsonValidation msg` stands for a pydantic `err.json()` body; `jsonCheck c`
for `CheckSchema(...).model_dump_json()`; `jsonResourceDoc d` for
`document.model_dump_json()`; `jsonArr` / `jsonObj` for other
`json_response` payloads; `textB` for a plain-text body. -/
inductive Body where
  | emptyB : Body
  | textB : String → Body
  | jsonError : String → Body
  | jsonValidation : String → Body
  | jsonCheck : CheckRec → Body
  | jsonResourceDoc : ResourceDoc → Body
  | jsonResource : ResourceRec → Body
  | jsonArr : List CheckRec → Body
  | jsonObj : List (String × String) → Body
  deriving Repr, DecidableEq

/-- Whether the body is JSON content. -/
def Body.isJson : Body → Bool
  | .jsonError _ => true
  | .jsonValidation _ => true
  | .jsonCheck _ => true
  | .jsonResourceDoc _ => true
  | .jsonResource _ => true
  | .jsonArr _ => true
  | .jsonObj _ => true
  | _ => false

/-- An HTTP response: status code and body. -/
structure Resp where
  status : Nat
  body : Body
  deriving Repr, DecidableEq

/-- Python exceptions that escape a handler (aiohttp turns them into a 500). -/
inductive PyExc where
  | valueError : PyExc
  | nameError : PyExc
  deriving Repr, DecidableEq

/-! ## §C1: `download_resource` (src/udata_hydra/datalake_service.py)

The body of the aiohttp response is embedded as the list of chunks that
`response.content.iter_chunked(1024)` yields: each chunk is a list of bytes
of size at most 1024.  The `content-length` header is an optional numeric
value; `headers.get("content-length", -1)` yields `-1` when absent, which is
never greater than the (non-negative) cap. -/

/-- Chunk size used by `download_resource` (`chunk_size = 1024`). -/
def chunk_size : Nat := 1024

/-- The `async for chunk in response.content.iter_chunked(chunk_size)` loop of
`download_resource`, with `i` the running chunk counter.  Writes the chunk to
the temp file when `i * chunk_size < MAX_FILESIZE_ALLOWED`, otherwise raises
`IOError("File too large to download")`.  The `.ok` value is the content of
the returned temp file. -/
def downloadLoop (MAX : Nat) : Nat → List (List Nat) → Except String (List Nat)
  | _, [] => .ok []
  | i, c :: cs =>
      if i * chunk_size < MAX then
        (downloadLoop MAX (i + 1) cs).map (fun rest => c ++ rest)
      else
        .error "File too large to download"

/-- Embeds `download_resource(url, response)`: raise
`IOError("File too large to download")` when the `content-length` header
exceeds `MAX_FILESIZE_ALLOWED`, otherwise stream the body chunks through
`downloadLoop`.  `cl` is the numeric value of the `content-length` header when
present. -/
def download_resource (MAX : Nat) (cl : Option Nat) (chunks : List (List Nat)) :
    Except String (List Nat) :=
  if (match cl with | some v => decide (v > MAX) | none => false) then
    .error "File too large to download"
  else
    downloadLoop MAX 0 chunks

/-- Total number of body bytes across all chunks. -/
def totalBytes (chunks : List (List Nat)) : Nat :=
  (chunks.map List.length).sum

/-! ## §C3: `process_resource` (src/udata_hydra/datalake_service.py)

The effects of `process_resource` are made explicit: the function returns the
list of messages passed to `send(...)` in order, together with a flag telling
whether `save_resource_to_minio` was called (content stored).  The parts of
the success path that inspect the downloaded file (`os.path.getsize`,
`magic.from_file`, `is_json_file`, `pd.read_csv`) are external libraries whose
outcomes are inputs of the embedding, collected in `FileAnalysis`.  The
`detect_encoding` / `find_delimiter` calls only pick parameters for
`pd.read_csv` and their failures are caught with fallbacks in the source, so
they do not influence the message flow and are folded into `readCsvOk`. -/

/-- Environment variables read by `datalake_service.py`. -/
structure DlEnv where
  MAX_FILESIZE_ALLOWED : Nat
  MINIO_URL : Option String
  MINIO_BUCKET : Option String
  MINIO_FOLDER : String

/-- A document passed to `send(dataset_id=…, resource_id=…, document=…)`. -/
inductive UdataDoc where
  | storeDataLocation : Option String → Option String → String → UdataDoc
  | analysisDoc : Option String → Option Nat → Option String → UdataDoc
  deriving Repr, DecidableEq

/-- One `send` call: target resource and the document sent. -/
structure SendMsg where
  dataset_id : String
  resource_id : String
  document : UdataDoc
  deriving Repr, DecidableEq

/-- Outcomes of the file-inspection libraries on the downloaded temp file. -/
structure FileAnalysis where
  filesize : Nat
  mime_type : String
  isJsonFile : Bool
  readCsvOk : Bool
  deriving Repr, DecidableEq

/-- Embeds `process_resource(url, dataset_id, resource_id, response)`.
Returns the list of `send` messages in order and whether
`save_resource_to_minio` ran.  The `try`/`except IOError` of the source
becomes a match on the result of `download_resource`; the inner
`try`/`except ValueError` around the CSV path becomes the `readCsvOk` test. -/
def process_resource (env : DlEnv) (cl : Option Nat) (chunks : List (List Nat))
    (fa : FileAnalysis) (dataset_id resource_id : String) :
    List SendMsg × Bool :=
  match download_resource env.MAX_FILESIZE_ALLOWED cl chunks with
  | .error _ =>
      ([⟨dataset_id, resource_id,
          .analysisDoc (some "File too large to download") none none⟩], false)
  | .ok _file =>
      let csvPart : List SendMsg × Bool :=
        if (fa.mime_type = "text/plain" ∨ fa.mime_type = "text/csv" ∨
              fa.mime_type = "application/csv") ∧ fa.isJsonFile = false then
          if fa.readCsvOk then
            ([⟨dataset_id, resource_id,
                .storeDataLocation env.MINIO_URL env.MINIO_BUCKET
                  (env.MINIO_FOLDER ++ "/" ++ dataset_id ++ "/" ++ resource_id)⟩],
              true)
          else ([], false)
        else ([], false)
      (csvPart.1 ++
        [⟨dataset_id, resource_id,
            .analysisDoc none (some fa.filesize) (some fa.mime_type)⟩],
        csvPart.2)

/-! ## §C2: `create_check` (src/udata_hydra/routes/checks.py)

`payload_rid` is the value of `payload["resource_id"]` when the key is
present (`none` embeds the `KeyError` branch).  `Resource.get` (code not in
src/) is abstracted as the lookup function `catalog`; `check_resource` and
`Check.get_latest` as `runCheck` and `latest`. -/

/-- Embeds the second `try` block of `create_check`:
`record = await Resource.get(resource_id, "url"); url = resource.url`.
The name `resource` is never bound in `create_check` (the record is bound to
`record`), so the second statement raises `NameError`, whatever the lookup
returned. -/
def create_check_urlLookup (catalog : String → Option String) (rid : String) :
    Except PyExc String :=
  let _record := catalog rid
  .error .nameError

/-- Embeds `create_check(request)`: 400 on a body without `resource_id`;
then the URL lookup block, whose exceptions (`except Exception`) become 404;
then the immediate check and the 200/400 outcome on the latest check. -/
def create_check (payload_rid : Option String)
    (catalog : String → Option String) (runCheck : String → String → String)
    (latest : String → String → Option CheckRec) : Resp :=
  match payload_rid with
  | none => ⟨400, .textB "Missing key: resource_id"⟩
  | some rid =>
      match create_check_urlLookup catalog rid with
      | .error _ => ⟨404, .textB ("Couldn't find URL for resource " ++ rid)⟩
      | .ok url =>
          let status := runCheck url rid
          match latest url rid with
          | none => ⟨400, .textB ("Check not created, status: " ++ status)⟩
          | some record => ⟨200, .jsonCheck record⟩

/-! ## §C4: `get_latest_check` (src/udata_hydra/routes/checks.py) -/

/-- Modelled from the spec: `Check.get_latest` (udata_hydra/db/check.py is
not in src/).  "A latest lookup returns the most recent non-deleted check for
a (url, resource_id) pair"; "Latest is defined by max created_at among
non-deleted rows." -/
def Check_get_latest (journal : List CheckRec) (url rid : String) :
    Option CheckRec :=
  (journal.filter
      (fun c => c.url = url ∧ c.resource_id = rid ∧ c.deleted = false)).argmax
    (fun c => c.created_at)

/-- Embeds the response logic of `get_latest_check(request)` on the record
returned by `Check.get_latest`: 404 when none, 410 when the record is
deleted, otherwise 200 with the check JSON. -/
def get_latest_check (record : Option CheckRec) : Resp :=
  match record with
  | none => ⟨404, .emptyB⟩
  | some r => if r.deleted then ⟨410, .emptyB⟩ else ⟨200, .jsonCheck r⟩

/-- The full GET `/api/checks/latest` path: lookup then response logic. -/
def get_latest_check_route (journal : List CheckRec) (url rid : String) : Resp :=
  get_latest_check (Check_get_latest journal url rid)

/-! ## §C5 / §C6: `create_resource`, `delete_resource`
(src/udata_hydra/routes/resources.py)

The pydantic schemas live in udata_hydra/schemas.py, which is not in src/;
they are modelled from the spec below.  A raw JSON payload is embedded as a
`RawPayload` of optional fields. -/

/-- The nested `document` object of a raw payload, before validation. -/
structure RawDoc where
  url : Option String
  deriving Repr, DecidableEq

/-- A raw admin-API resource payload, before validation. -/
structure RawPayload where
  dataset_id : Option String
  resource_id : Option String
  document : Option RawDoc
  deriving Repr, DecidableEq

/-- The result of a successful `ResourceSchema.model_validate(payload)`. -/
structure ResourceModel where
  dataset_id : String
  resource_id : String
  document : Option RawDoc
  deriving Repr, DecidableEq

/-- Modelled from the spec: `ResourceSchema` (udata_hydra/schemas.py is not
in src/): "the intended schema for create/update is the one with
`dataset_id`, `resource_id`, and nested `document.url`".  Validation
requires `dataset_id` and `resource_id`; `document` stays raw, validated
separately by `ResourceDocumentSchema`.  The `.error` value is the pydantic
`ValidationError` message. -/
def ResourceSchema_validate (p : RawPayload) : Except String ResourceModel :=
  match p.dataset_id, p.resource_id with
  | some d, some r => .ok ⟨d, r, p.document⟩
  | _, _ => .error "validation error: field required"

/-- Modelled from the spec: `ResourceDocumentSchema` (udata_hydra/schemas.py
is not in src/): the nested document must be an object carrying `url`;
`model_validate(None)` and a document without `url` raise
`ValidationError`. -/
def ResourceDocumentSchema_validate (d : Option RawDoc) : Except String ResourceDoc :=
  match d with
  | none => .error "validation error: document is not a valid object"
  | some doc =>
      match doc.url with
      | none => .error "validation error: document.url field required"
      | some u => .ok ⟨u⟩

/-- A validated pydantic model instance is always truthy in Python, so the
`if not document:` branch of `create_resource` never fires after a
successful `model_validate`. -/
def modelTruthy (_ : ResourceDoc) : Bool := true

/-- A write against the catalog table, as issued by the handlers.
`Resource.insert(dataset_id=…, resource_id=…, url=…, priority=True)`
becomes `insertOp … true`. -/
inductive CatalogOp where
  | insertOp : String → String → String → Bool → CatalogOp
  deriving Repr, DecidableEq

/-- Embeds `create_resource(request)`: validate the payload and its
document (400 with the pydantic JSON on failure), then insert into the
catalog with `priority=True` and answer `web.json_response` — whose default
status is 200 — with the document JSON. -/
def create_resource (p : RawPayload) : Resp × List CatalogOp :=
  match ResourceSchema_validate p with
  | .error e => (⟨400, .jsonValidation e⟩, [])
  | .ok r =>
      match ResourceDocumentSchema_validate r.document with
      | .error e => (⟨400, .jsonValidation e⟩, [])
      | .ok doc =>
          if modelTruthy doc = false then (⟨400, .textB "Missing document body"⟩, [])
          else
            (⟨200, .jsonResourceDoc doc⟩,
              [.insertOp r.dataset_id r.resource_id doc.url true])

/-- Modelled from the spec: `Resource.get(resource_id)`
(udata_hydra/db/resource.py is not in src/): fetch the catalog row with the
given `resource_id`. -/
def Resource_get (catalog : List ResourceRec) (rid : String) : Option ResourceRec :=
  catalog.find? (fun r => r.resource_id = rid)

/-- `setDeleted r` is `r` with its tombstone raised. -/
def setDeleted (r : ResourceRec) : ResourceRec :=
  ⟨r.dataset_id, r.resource_id, r.url, r.status, r.priority, true⟩

/-- Modelled from the spec: `Resource.delete(resource_id)`
(udata_hydra/db/resource.py is not in src/): "Mark resource as deleted in
catalog table" (handler comment), "soft-deleted, never hard-deleted" —
set `deleted` on the matching rows, keeping every row. -/
def Resource_delete (catalog : List ResourceRec) (rid : String) : List ResourceRec :=
  catalog.map (fun r => if r.resource_id = rid then setDeleted r else r)

/-- Embeds `delete_resource(request)`: validate the payload (400 on
failure), 404 when the resource is not in the catalog, otherwise mark it
deleted and answer `HTTPNoContent` (204, empty body).  Returns the response
together with the catalog after the call. -/
def delete_resource (p : RawPayload) (catalog : List ResourceRec) :
    Resp × List ResourceRec :=
  match ResourceSchema_validate p with
  | .error e => (⟨400, .jsonValidation e⟩, catalog)
  | .ok r =>
      match Resource_get catalog r.resource_id with
      | none => (⟨404, .emptyB⟩, catalog)
      | some _ => (⟨204, .emptyB⟩, Resource_delete catalog r.resource_id)

/-! ## §C7: `get_checks_aggregate` (src/udata_hydra/routes/checks.py) -/

/-- A Python `datetime.date`. -/
structure PyDate where
  year : Nat
  month : Nat
  day : Nat
  deriving Repr, DecidableEq

/-- Gregorian leap-year rule, as in the Python stdlib `datetime`. -/
def isLeapYear (y : Nat) : Bool :=
  (y % 4 = 0 && y % 100 ≠ 0) || y % 400 = 0

/-- Days in a month, as in the Python stdlib `datetime`. -/
def daysInMonth (y m : Nat) : Nat :=
  if m = 2 then (if isLeapYear y then 29 else 28)
  else if m = 4 ∨ m = 6 ∨ m = 9 ∨ m = 11 then 30
  else 31

/-- Numeric value of an ASCII digit. -/
def digitVal (c : Char) : Option Nat :=
  if c.isDigit then some (c.toNat - 48) else none

/-- Modelled from the Python stdlib `date.fromisoformat` (the standard
library is not part of this repository): accepts exactly `YYYY-MM-DD`
denoting a valid calendar date with year at least 1, and returns `none`
where Python raises `ValueError`. -/
def dateFromIso (s : String) : Option PyDate :=
  match s.data with
  | [a, b, c, d, s1, e, f, s2, g, h] =>
      if s1 = '-' && s2 = '-' then
        match digitVal a, digitVal b, digitVal c, digitVal d,
            digitVal e, digitVal f, digitVal g, digitVal h with
        | some a, some b, some c, some d, some e, some f, some g, some h =>
            let y := ((a * 10 + b) * 10 + c) * 10 + d
            let m := e * 10 + f
            let dy := g * 10 + h
            if 1 ≤ y ∧ 1 ≤ m ∧ m ≤ 12 ∧ 1 ≤ dy ∧ dy ≤ daysInMonth y m then
              some ⟨y, m, dy⟩
            else none
        | _, _, _, _, _, _, _, _ => none
      else none
  | _ => none

/-- The 400 message for a missing `created_at` (quotes stripped). -/
def msgMissingCreatedAt : String :=
  "Missing mandatory created_at param. You can use created_at=today to filter on today checks."

/-- The 400 message for a missing `group_by` (quotes stripped). -/
def msgMissingGroupBy : String := "Missing mandatory group_by param."

/-- Embeds `get_checks_aggregate(request)`.  `created_at` and `group_by`
are the query parameters (`none` when absent; Python treats the empty
string as falsy too); `today` is `date.today()`;
`Check.get_group_by_for_date` (code not in src/) is the `lookup` argument.
A malformed `created_at` makes `date.fromisoformat` raise `ValueError`,
which no handler catches — embedded as `.error .valueError` (aiohttp turns
it into a 500). -/
def get_checks_aggregate (created_at group_by : Option String) (today : PyDate)
    (lookup : String → PyDate → List CheckRec) : Except PyExc Resp :=
  if created_at = none ∨ created_at = some "" then
    .ok ⟨400, .textB msgMissingCreatedAt⟩
  else
    match (if created_at.getD "" = "today" then Except.ok today
        else
          match dateFromIso (created_at.getD "") with
          | none => Except.error PyExc.valueError
          | some d => Except.ok d) with
    | .error e => .error e
    | .ok created_at_date =>
        if group_by = none ∨ group_by = some "" then
          .ok ⟨400, .textB msgMissingGroupBy⟩
        else
          if lookup (group_by.getD "") created_at_date = [] then
            .ok ⟨404, .emptyB⟩
          else .ok ⟨200, .jsonArr (lookup (group_by.getD "") created_at_date)⟩

/-! ## §C8: `generate_routes` (src/udata_hydra/routes/__init__.py)

Handlers and HTTP methods are identified by their names; `web.RouteDef`
becomes `RouteDef`. -/

/-- One entry of the route parameter list: method, path, handler, name. -/
structure RouteParam where
  method : String
  path : String
  handler : String
  name : Option String
  deriving Repr, DecidableEq

/-- An aiohttp `web.RouteDef` as produced by `method(path, handler, name)`. -/
structure RouteDef where
  method : String
  path : String
  handler : String
  name : Option String
  deriving Repr, DecidableEq

/-- `path.endswith("/")`. -/
def pathEndsSlash (p : String) : Bool := p.data.getLast? = some '/'

/-- `path[:-1]`. -/
def pathDropLast (p : String) : String := ⟨p.data.dropLast⟩

/-- The two routes the loop body of `generate_routes` appends for one
entry: the given path (with the name), then the trailing-slash variant
(`path[:-1]` when the path already ends with `/`, `path + "/"` otherwise,
without a name). -/
def routesFor (p : RouteParam) : List RouteDef :=
  [⟨p.method, p.path, p.handler, p.name⟩] ++
    (if pathEndsSlash p.path then [⟨p.method, pathDropLast p.path, p.handler, none⟩]
     else [⟨p.method, p.path ++ "/", p.handler, none⟩])

/-- Embeds `generate_routes(routes_params)`: the loop over the entries,
appending `routesFor` each. -/
def generate_routes : List RouteParam → List RouteDef
  | [] => []
  | p :: ps => routesFor p ++ generate_routes ps

/-- The module-level `routes_params` list of routes/__init__.py. -/
def routes_params : List RouteParam :=
  [⟨"get", "/api/checks/latest", "get_latest_check", some "get-latest-check"⟩,
   ⟨"get", "/api/checks/all", "get_all_checks", none⟩,
   ⟨"get", "/api/checks/aggregate", "get_checks_aggregate", none⟩,
   ⟨"post", "/api/checks", "create_check", none⟩,
   ⟨"get", "/api/resources/{resource_id}", "get_resource", none⟩,
   ⟨"get", "/api/resources/{resource_id}/status", "get_resource_status", none⟩,
   ⟨"post", "/api/resources", "create_resource", none⟩,
   ⟨"put", "/api/resources/{resource_id}", "update_resource", none⟩,
   ⟨"delete", "/api/resources/{resource_id}", "delete_resource", none⟩,
   ⟨"get", "/api/status/crawler", "get_crawler_status", none⟩,
   ⟨"get", "/api/status/worker", "get_worker_status", none⟩,
   ⟨"get", "/api/stats", "get_stats", none⟩,
   ⟨"get", "/api/health", "get_health", none⟩]

/-- The module-level `legacy_routes_params` list of routes/__init__.py. -/
def legacy_routes_params : List RouteParam :=
  [⟨"get", "/api/resources", "get_resource_legacy", none⟩,
   ⟨"post", "/api/resource/created", "create_resource_legacy", none⟩,
   ⟨"post", "/api/resource/updated", "update_resource_legacy", none⟩,
   ⟨"post", "/api/resource/deleted", "delete_resource_legacy", none⟩]

/-! ## §C9: `ResourceException.insert` (src/udata_hydra/db/resource_exception.py) -/

/-- A SQL statement executed against the `resources_exceptions` table:
the `INSERT … VALUES ('rid', 'json.dumps(table_indexes)')` of
`ResourceException.insert`. -/
inductive SqlOp where
  | insertException : String → List (String × String) → SqlOp
  deriving Repr, DecidableEq

/-- Embeds `ResourceException.insert(resource_id, table_indexes)`:
first look the resource up in the catalog (`Resource.get`, abstracted as
`getResource`); raise `ValueError("Resource not found")` when absent;
execute the INSERT only otherwise.  Returns the list of executed
statements. -/
def ResourceException_insert (getResource : String → Option ResourceRec)
    (rid : String) (table_indexes : List (String × String)) :
    Except String (List SqlOp) :=
  match getResource rid with
  | none => .error "Resource not found"
  | some _ => .ok [.insertException rid table_indexes]

/-! ## §C10: `get_resource`, `get_resource_status`
(src/udata_hydra/routes/resources.py)

`str(uuid.UUID(raw))` is abstracted as the `parseUUID` argument: `.ok` is
the canonicalized UUID string on a well-formed input, `.error` the message
of the `ValueError` raised on a malformed one. -/

/-- Embeds `get_resource(request)`: 400 with the JSON error object when the
path `resource_id` is not a well-formed UUID, 404 when no catalog row
matches, 200 with the resource JSON otherwise. -/
def get_resource (parseUUID : String → Except String String)
    (getResource : String → Option ResourceRec) (raw : String) : Resp :=
  match parseUUID raw with
  | .error e => ⟨400, .jsonError e⟩
  | .ok rid =>
      match getResource rid with
      | none => ⟨404, .emptyB⟩
      | some rec => ⟨200, .jsonResource rec⟩

/-- Embeds `get_resource_status(request)`: same prelude as `get_resource`,
then the status JSON (`Resource.STATUSES` — code not in src/ — is the
`verbose` argument, the scheme/host prefix of `latest_check_url` the
`schemeHost` argument). -/
def get_resource_status (parseUUID : String → Except String String)
    (getResource : String → Option ResourceRec)
    (verbose : Option String → String) (schemeHost : String) (raw : String) :
    Resp :=
  match parseUUID raw with
  | .error e => ⟨400, .jsonError e⟩
  | .ok rid =>
      match getResource rid with
      | none => ⟨404, .emptyB⟩
      | some rec =>
          ⟨200, .jsonObj
            [("resource_id", rid),
             ("status", rec.status.getD "None"),
             ("status_verbose", verbose rec.status),
             ("latest_check_url",
               schemeHost ++ "/api/checks/latest?resource_id=" ++ rid)]⟩

/-- A 1024-byte chunk of zero bytes. -/
def fullChunk : List Nat := List.replicate 1024 0

/-- A two-entry check journal for the C4 witness: one live check and one
more recent but deleted one for the same target. -/
def journal0 : List CheckRec :=
  [⟨"u", "r", 1, false⟩, ⟨"u", "r", 5, true⟩]

/-- A well-formed admin-API payload for the C5 / C6 witnesses. -/
def payload0 : RawPayload :=
  ⟨some "d1", some "r1", some ⟨some "http://example.com/data.csv"⟩⟩

/-- A one-row catalog for the C6 witness, holding the resource `r1`. -/
def catalog0 : List ResourceRec :=
  [⟨"d1", "r1", "http://example.com/data.csv", none, false, false⟩]

/-- A concrete `date.today()` for the C7 witness. -/
def d0 : PyDate := ⟨2026, 10, 12⟩

/-- An aggregate lookup for the C7 witness: non-empty exactly on the
`status` column for the date `d0`. -/
def lookup0 (gb : String) (d : PyDate) : List CheckRec :=
  if gb = "status" ∧ d = d0 then [⟨"u", "r", 1, false⟩] else []

/-- A concrete stand-in for `str(uuid.UUID(raw))` in the C10 witness:
accepts one canonical UUID string, rejects everything else with the Python
message. -/
def parseUUID0 (raw : String) : Except String String :=
  if raw = "123e4567-e89b-12d3-a456-426614174000" then .ok raw
  else .error "badly formed hexadecimal UUID string"

/-- A catalog lookup for the C9 / C10 witnesses: only `r1` exists. -/
def getResource0 (rid : String) : Option ResourceRec :=
  if rid = "123e4567-e89b-12d3-a456-426614174000" then
    some ⟨"d1", rid, "http://example.com/data.csv", none, false, false⟩
  else none

/-! ## Theorems -/

set_option maxRecDepth 8192

/-- C1 (code_bug): with `MAX_FILESIZE_ALLOWED = 1000`, no `content-length`
header, and a body delivered as one full 1024-byte chunk, `download_resource`
returns the file even though the cumulative body size 1024 exceeds the cap:
the streaming guard compares `i * chunk_size` (bytes before the current
chunk) to the cap, so the first chunk is always written whole.  The claim
(and the spec's §4.5 step 2) requires an abort whenever cumulative bytes
exceed `MAX_FILESIZE_ALLOWED`. -/
theorem C1_download_cap_not_enforced :
    download_resource 1000 none [fullChunk] = .ok fullChunk ∧
      totalBytes [fullChunk] > 1000 := by
  refine ⟨?_, by decide⟩
  have h : download_resource 1000 none [fullChunk] =
      Except.map (fun rest => fullChunk ++ rest) (.ok []) := rfl
  rw [h, Except.map, List.append_nil]

/-- C3 (confirmed): whenever the download aborts (the only error
`download_resource` raises is the oversize `IOError`), `process_resource`
sends exactly one notification, addressed to the given
`(dataset_id, resource_id)`, whose payload has
`analysis:error = "File too large to download"` and null
`analysis:filesize` and `analysis:mime`; and nothing is stored. -/
theorem C3_oversize_one_notification (env : DlEnv) (cl : Option Nat)
    (chunks : List (List Nat)) (fa : FileAnalysis) (did rid msg : String)
    (h : download_resource env.MAX_FILESIZE_ALLOWED cl chunks = .error msg) :
    process_resource env cl chunks fa did rid =
      ([⟨did, rid, .analysisDoc (some "File too large to download") none none⟩],
        false) := by
  unfold process_resource
  rw [h]

/-- C2 (code_bug): whatever the catalog holds — in particular when
`resource_id` is present with a URL — `create_check` responds 404: the body
`url = resource.url` dereferences the undefined name `resource` (the record
was bound to `record`), the `NameError` is swallowed by `except Exception`,
and the handler raises `HTTPNotFound`.  The claim (and the spec) requires a
200 with the latest check when the resource exists. -/
theorem C2_create_check_always_404 (catalog : String → Option String)
    (runCheck : String → String → String)
    (latest : String → String → Option CheckRec) (rid : String) :
    create_check (some rid) catalog runCheck latest =
      ⟨404, .textB ("Couldn't find URL for resource " ++ rid)⟩ := rfl

/-- C4 (confirmed): GET `/api/checks/latest` answers 404 when the lookup
finds no check; the latest lookup only ever returns a non-deleted check, and
then the route answers 200 with that check's JSON; the handler's
deleted-record branch answers 410. -/
theorem C4_latest_check_route (journal : List CheckRec) (url rid : String) :
    (Check_get_latest journal url rid = none →
        get_latest_check_route journal url rid = ⟨404, .emptyB⟩) ∧
    (∀ r, Check_get_latest journal url rid = some r →
        r.deleted = false ∧
          get_latest_check_route journal url rid = ⟨200, .jsonCheck r⟩) ∧
    (∀ r, r.deleted = true → get_latest_check (some r) = ⟨410, .emptyB⟩) := by
  refine ⟨?_, ?_, ?_⟩
  · intro h
    rw [get_latest_check_route, h, get_latest_check]
  · intro r hr
    have hmem : r ∈ journal.filter
        (fun c => decide (c.url = url ∧ c.resource_id = rid ∧ c.deleted = false)) :=
      List.argmax_mem (Option.mem_def.mpr hr)
    have hprop := of_decide_eq_true (List.mem_filter.mp hmem).2
    refine ⟨hprop.2.2, ?_⟩
    rw [get_latest_check_route, hr, get_latest_check, hprop.2.2]
    simp
  · intro r hdel
    rw [get_latest_check, hdel]
    simp

/-- Witness for C4 on the concrete journal `journal0`: the live check wins
the latest lookup (the deleted one, though more recent, is filtered out), the
route answers 200 with it; a deleted record maps to 410; an unknown URL maps
to 404. -/
theorem C4_latest_check_route_witness :
    (⟨"u", "r", 1, false⟩ : CheckRec).deleted = false ∧
      get_latest_check_route journal0 "u" "r" =
        ⟨200, .jsonCheck ⟨"u", "r", 1, false⟩⟩ ∧
      get_latest_check (some ⟨"u", "r", 5, true⟩) = ⟨410, .emptyB⟩ ∧
      get_latest_check_route journal0 "x" "r" = ⟨404, .emptyB⟩ := by
  have h := C4_latest_check_route journal0 "u" "r"
  have h200 := h.2.1 ⟨"u", "r", 1, false⟩ (by decide)
  have h404 := (C4_latest_check_route journal0 "x" "r").1 (by decide)
  have h410 := (C4_latest_check_route journal0 "u" "r").2.2 ⟨"u", "r", 5, true⟩ rfl
  exact ⟨h200.1, h200.2, h410, h404⟩

/-- Witness for C3 at a concrete oversize response
(`content-length = 5000 > MAX_FILESIZE_ALLOWED = 1000`). -/
theorem C3_oversize_one_notification_witness :
    download_resource 1000 (some 5000) [] = .error "File too large to download" ∧
      process_resource ⟨1000, none, none, "folder"⟩ (some 5000) [] ⟨0, "", false, false⟩
          "d1" "r1" =
        ([⟨"d1", "r1", .analysisDoc (some "File too large to download") none none⟩],
          false) :=
  ⟨rfl, C3_oversize_one_notification ⟨1000, none, none, "folder"⟩ (some 5000) []
    ⟨0, "", false, false⟩ "d1" "r1" "File too large to download" rfl⟩

/-- For a payload that passed `ResourceSchema.model_validate`, the validated
model's `document` is the raw payload's `document` field. -/
theorem resourceModel_document_eq (p : RawPayload) (r : ResourceModel)
    (h : ResourceSchema_validate p = .ok r) : r.document = p.document := by
  unfold ResourceSchema_validate at h
  cases hd : p.dataset_id <;> rw [hd] at h
  · exact absurd h (by simp)
  · cases hr : p.resource_id <;> rw [hr] at h
    · exact absurd h (by simp)
    · cases h
      rfl

/-- C5 (counterexample): on a fully valid payload, `create_resource`
answers with status 200 — `web.json_response` with the default status, as
the handler's own docstring says — not the 201 the claim states. -/
theorem C5_create_resource_not_201 :
    (create_resource payload0).1 =
      ⟨200, .jsonResourceDoc ⟨"http://example.com/data.csv"⟩⟩ ∧
      (create_resource payload0).1.status ≠ 201 := by
  refine ⟨rfl, ?_⟩
  intro h
  simp [create_resource, payload0, ResourceSchema_validate,
    ResourceDocumentSchema_validate, modelTruthy] at h

/-- C5 (amended): a payload that validates and carries a document with a
URL makes `create_resource` insert the resource with `priority=true` and
answer 200 (not 201) with the document JSON; a payload failing validation,
or lacking a document, gets a 400 with a JSON body and no insert. -/
theorem C5_create_resource_behaviour (p : RawPayload) :
    (∀ r doc, ResourceSchema_validate p = .ok r →
        ResourceDocumentSchema_validate r.document = .ok doc →
        create_resource p =
          (⟨200, .jsonResourceDoc doc⟩,
            [.insertOp r.dataset_id r.resource_id doc.url true])) ∧
    (∀ e, ResourceSchema_validate p = .error e →
        create_resource p = (⟨400, .jsonValidation e⟩, []) ∧
          Body.isJson (.jsonValidation e) = true) ∧
    (∀ r e, ResourceSchema_validate p = .ok r →
        ResourceDocumentSchema_validate r.document = .error e →
        create_resource p = (⟨400, .jsonValidation e⟩, []) ∧
          Body.isJson (.jsonValidation e) = true) ∧
    (p.document = none →
        (create_resource p).1.status = 400 ∧
          (create_resource p).1.body.isJson = true) := by
  refine ⟨?_, ?_, ?_, ?_⟩
  · intro r doc h1 h2
    unfold create_resource
    rw [h1]
    dsimp only
    rw [h2]
    simp [modelTruthy]
  · intro e h1
    unfold create_resource
    rw [h1]
    exact ⟨rfl, rfl⟩
  · intro r e h1 h2
    unfold create_resource
    rw [h1]
    dsimp only
    rw [h2]
    exact ⟨rfl, rfl⟩
  · intro hdoc
    unfold create_resource
    cases h1 : ResourceSchema_validate p with
    | error e => exact ⟨rfl, rfl⟩
    | ok r =>
        have hrd : r.document = none := by
          rw [resourceModel_document_eq p r h1, hdoc]
        dsimp only
        rw [hrd]
        exact ⟨rfl, rfl⟩

/-- Witness for C5 at concrete payloads: the valid `payload0` is inserted
with priority and answered 200 with its document; the empty payload gets a
400 validation response. -/
theorem C5_create_resource_behaviour_witness :
    create_resource payload0 =
      (⟨200, .jsonResourceDoc ⟨"http://example.com/data.csv"⟩⟩,
        [.insertOp "d1" "r1" "http://example.com/data.csv" true]) ∧
      create_resource ⟨none, none, none⟩ =
        (⟨400, .jsonValidation "validation error: field required"⟩, []) :=
  ⟨(C5_create_resource_behaviour payload0).1
      ⟨"d1", "r1", some ⟨some "http://example.com/data.csv"⟩⟩
      ⟨"http://example.com/data.csv"⟩ rfl rfl,
    ((C5_create_resource_behaviour ⟨none, none, none⟩).2.1
      "validation error: field required" rfl).1⟩

/-- C6 (confirmed): on a validated payload, `delete_resource` answers 204
with no content and soft-deletes when the resource exists — the catalog
keeps every row, the matching rows get their tombstone set, the others are
untouched — and answers 404 leaving the catalog unchanged when it does
not. -/
theorem C6_delete_resource_soft (p : RawPayload) (catalog : List ResourceRec)
    (r : ResourceModel) (hv : ResourceSchema_validate p = .ok r) :
    (∀ rec, Resource_get catalog r.resource_id = some rec →
        delete_resource p catalog =
          (⟨204, .emptyB⟩, Resource_delete catalog r.resource_id)) ∧
    (Resource_get catalog r.resource_id = none →
        delete_resource p catalog = (⟨404, .emptyB⟩, catalog)) ∧
    (Resource_delete catalog r.resource_id).length = catalog.length ∧
    (∀ x ∈ catalog, x.resource_id = r.resource_id →
        setDeleted x ∈ Resource_delete catalog r.resource_id) ∧
    (∀ x ∈ catalog, x.resource_id ≠ r.resource_id →
        x ∈ Resource_delete catalog r.resource_id) := by
  refine ⟨?_, ?_, ?_, ?_, ?_⟩
  · intro rec hg
    unfold delete_resource
    rw [hv]
    dsimp only
    rw [hg]
  · intro hg
    unfold delete_resource
    rw [hv]
    dsimp only
    rw [hg]
  · exact List.length_map catalog _
  · intro x hx hid
    exact List.mem_map.mpr ⟨x, hx, by simp [hid]⟩
  · intro x hx hid
    exact List.mem_map.mpr ⟨x, hx, by simp [hid]⟩

/-- Witness for C6: deleting `r1` from the one-row catalog answers 204 and
keeps the row with its tombstone set; deleting it from the empty catalog
answers 404. -/
theorem C6_delete_resource_soft_witness :
    delete_resource payload0 catalog0 =
      (⟨204, .emptyB⟩,
        [⟨"d1", "r1", "http://example.com/data.csv", none, false, true⟩]) ∧
      delete_resource payload0 [] = (⟨404, .emptyB⟩, []) := by
  have h := C6_delete_resource_soft payload0 catalog0
    ⟨"d1", "r1", some ⟨some "http://example.com/data.csv"⟩⟩ rfl
  have h2 := C6_delete_resource_soft payload0 []
    ⟨"d1", "r1", some ⟨some "http://example.com/data.csv"⟩⟩ rfl
  exact ⟨h.1 ⟨"d1", "r1", "http://example.com/data.csv", none, false, false⟩ rfl,
    h2.2.1 rfl⟩

/-- C7 (counterexample): with `created_at=garbage` present and `group_by`
absent, the handler does not answer 400 for the missing `group_by`:
`date.fromisoformat("garbage")` raises a `ValueError` that nothing catches,
so the request dies with an unhandled exception before the `group_by` check
runs. -/
theorem C7_aggregate_counterexample :
    get_checks_aggregate (some "garbage") none ⟨2026, 10, 12⟩ (fun _ _ => []) =
        .error .valueError ∧
      get_checks_aggregate (some "garbage") none ⟨2026, 10, 12⟩ (fun _ _ => []) ≠
        .ok ⟨400, .textB msgMissingGroupBy⟩ := by
  have h : get_checks_aggregate (some "garbage") none ⟨2026, 10, 12⟩
      (fun _ _ => []) = .error .valueError := rfl
  refine ⟨h, ?_⟩
  rw [h]
  exact fun hc => Except.noConfusion hc

/-- C7 (amended): a missing (or empty) `created_at` gets a 400; when
`created_at` is present and either `today` — which selects the current
date — or a well-formed ISO date, a missing `group_by` gets a 400, an empty
aggregate a 404, and a non-empty one a 200 with the JSON aggregate; a
present but malformed `created_at` instead raises an uncaught `ValueError`
(HTTP 500), whether or not `group_by` is present. -/
theorem C7_aggregate_behaviour (created_at group_by : Option String)
    (today : PyDate) (lookup : String → PyDate → List CheckRec) :
    ((created_at = none ∨ created_at = some "") →
        get_checks_aggregate created_at group_by today lookup =
          .ok ⟨400, .textB msgMissingCreatedAt⟩) ∧
    (∀ ca d, created_at = some ca → ca ≠ "" →
        ((ca = "today" ∧ d = today) ∨
          (ca ≠ "today" ∧ dateFromIso ca = some d)) →
        (((group_by = none ∨ group_by = some "") →
            get_checks_aggregate created_at group_by today lookup =
              .ok ⟨400, .textB msgMissingGroupBy⟩) ∧
          ∀ gb, group_by = some gb → gb ≠ "" →
            ((lookup gb d = [] →
                get_checks_aggregate created_at group_by today lookup =
                  .ok ⟨404, .emptyB⟩) ∧
              (lookup gb d ≠ [] →
                get_checks_aggregate created_at group_by today lookup =
                  .ok ⟨200, .jsonArr (lookup gb d)⟩)))) ∧
    (∀ ca, created_at = some ca → ca ≠ "" → ca ≠ "today" →
        dateFromIso ca = none →
        get_checks_aggregate created_at group_by today lookup =
          .error .valueError) := by
  refine ⟨?_, ?_, ?_⟩
  · intro h
    unfold get_checks_aggregate
    rw [if_pos h]
  · rintro ca d rfl hne hd
    have hcond : ¬((some ca : Option String) = none ∨
        (some ca : Option String) = some "") := by simp [hne]
    unfold get_checks_aggregate
    rw [if_neg hcond]
    simp only [Option.getD_some]
    have hdate : (if ca = "today" then
          (Except.ok today : Except PyExc PyDate)
        else
          match dateFromIso ca with
          | none => Except.error PyExc.valueError
          | some d => Except.ok d) = Except.ok d := by
      rcases hd with ⟨h1, h2⟩ | ⟨h1, h2⟩
      · rw [if_pos h1, h2]
      · rw [if_neg h1, h2]
    rw [hdate]
    dsimp only
    constructor
    · intro hgb
      rw [if_pos hgb]
    · rintro gb rfl hgbne
      have hgcond : ¬((some gb : Option String) = none ∨
          (some gb : Option String) = some "") := by simp [hgbne]
      rw [if_neg hgcond]
      simp only [Option.getD_some]
      constructor
      · intro hl
        show (if lookup gb d = [] then _ else _) = _
        rw [if_pos hl]
      · intro hl
        show (if lookup gb d = [] then _ else _) = _
        rw [if_neg hl]
  · rintro ca rfl hne hnetoday hiso
    have hcond : ¬((some ca : Option String) = none ∨
        (some ca : Option String) = some "") := by simp [hne]
    unfold get_checks_aggregate
    rw [if_neg hcond]
    simp only [Option.getD_some]
    have hdate : (if ca = "today" then
          (Except.ok today : Except PyExc PyDate)
        else
          match dateFromIso ca with
          | none => Except.error PyExc.valueError
          | some d => Except.ok d) = Except.error PyExc.valueError := by
      rw [if_neg hnetoday, hiso]
    rw [hdate]

/-- Witness for C7 at concrete requests: missing `created_at` → 400;
`created_at=today` with missing `group_by` → 400; `created_at=today` with
`group_by=status` hits the lookup at today's date and answers 200 with the
aggregate; a valid non-today date whose aggregate is empty → 404. -/
theorem C7_aggregate_behaviour_witness :
    get_checks_aggregate none (some "status") d0 lookup0 =
        .ok ⟨400, .textB msgMissingCreatedAt⟩ ∧
      get_checks_aggregate (some "today") none d0 lookup0 =
        .ok ⟨400, .textB msgMissingGroupBy⟩ ∧
      get_checks_aggregate (some "today") (some "status") d0 lookup0 =
        .ok ⟨200, .jsonArr [⟨"u", "r", 1, false⟩]⟩ ∧
      get_checks_aggregate (some "2026-01-02") (some "status") d0 lookup0 =
        .ok ⟨404, .emptyB⟩ := by
  have h1 := (C7_aggregate_behaviour none (some "status") d0 lookup0).1
    (Or.inl rfl)
  have h2 := ((C7_aggregate_behaviour (some "today") none d0 lookup0).2.1
    "today" d0 rfl (by decide) (Or.inl ⟨rfl, rfl⟩)).1 (Or.inl rfl)
  have h3 := (((C7_aggregate_behaviour (some "today") (some "status") d0
      lookup0).2.1 "today" d0 rfl (by decide) (Or.inl ⟨rfl, rfl⟩)).2
    "status" rfl (by decide)).2 (by decide)
  have h4 := (((C7_aggregate_behaviour (some "2026-01-02") (some "status") d0
      lookup0).2.1 "2026-01-02" ⟨2026, 1, 2⟩ rfl (by decide)
      (Or.inr ⟨by decide, by decide⟩)).2 "status" rfl (by decide)).1
    (by decide)
  refine ⟨h1, h2, ?_, h4⟩
  have hl : lookup0 "status" d0 = [⟨"u", "r", 1, false⟩] := by decide
  rw [hl] at h3
  exact h3

/-- C8 (confirmed): `generate_routes` processes each entry of the route
parameter list independently, and for every entry of the module's
`routes_params` and `legacy_routes_params` lists it produces exactly two
route definitions with the entry's method and handler: the entry's path
(which does not end with a slash) and its trailing-slash variant. -/
theorem C8_two_routes_per_entry :
    (∀ ps : List RouteParam, generate_routes ps = ps.flatMap routesFor) ∧
    ∀ p ∈ routes_params ++ legacy_routes_params,
      routesFor p =
          [⟨p.method, p.path, p.handler, p.name⟩,
            ⟨p.method, p.path ++ "/", p.handler, none⟩] ∧
        pathEndsSlash p.path = false ∧ pathEndsSlash (p.path ++ "/") = true := by
  constructor
  · intro ps
    induction ps with
    | nil => rfl
    | cons p ps ih => simp [generate_routes, ih, List.flatMap_cons]
  · decide

/-- Witness for C8 at the first entry of `routes_params`. -/
theorem C8_two_routes_per_entry_witness :
    routesFor ⟨"get", "/api/checks/latest", "get_latest_check",
        some "get-latest-check"⟩ =
        [⟨"get", "/api/checks/latest", "get_latest_check",
            some "get-latest-check"⟩,
          ⟨"get", "/api/checks/latest" ++ "/", "get_latest_check", none⟩] ∧
      pathEndsSlash "/api/checks/latest" = false ∧
      pathEndsSlash ("/api/checks/latest" ++ "/") = true :=
  C8_two_routes_per_entry.2
    ⟨"get", "/api/checks/latest", "get_latest_check", some "get-latest-check"⟩
    (by decide)

/-- C9 (confirmed): `ResourceException.insert` raises
`ValueError("Resource not found")` and executes nothing when the
`resource_id` is not in the catalog; the INSERT into
`resources_exceptions` is executed exactly when the resource exists. -/
theorem C9_exception_insert (getResource : String → Option ResourceRec)
    (rid : String) (ti : List (String × String)) :
    (getResource rid = none →
        ResourceException_insert getResource rid ti =
          .error "Resource not found") ∧
    (∀ rec, getResource rid = some rec →
        ResourceException_insert getResource rid ti =
          .ok [.insertException rid ti]) ∧
    (∀ ops, ResourceException_insert getResource rid ti = .ok ops →
        getResource rid ≠ none ∧ ops = [.insertException rid ti]) := by
  refine ⟨?_, ?_, ?_⟩
  · intro h
    unfold ResourceException_insert
    rw [h]
  · intro rec h
    unfold ResourceException_insert
    rw [h]
  · intro ops h
    unfold ResourceException_insert at h
    cases hg : getResource rid with
    | none =>
        rw [hg] at h
        exact absurd h (by simp)
    | some rec =>
        rw [hg] at h
        dsimp only at h
        refine ⟨by simp, ?_⟩
        injection h with h2
        exact h2.symm

/-- Witness for C9: inserting an exception for the known resource executes
exactly the INSERT; for an unknown `resource_id` it raises
`ValueError("Resource not found")`. -/
theorem C9_exception_insert_witness :
    ResourceException_insert getResource0
        "123e4567-e89b-12d3-a456-426614174000" [("siren", "unique")] =
        .ok [.insertException "123e4567-e89b-12d3-a456-426614174000"
          [("siren", "unique")]] ∧
      ResourceException_insert getResource0 "nope" [] =
        .error "Resource not found" :=
  ⟨(C9_exception_insert getResource0 "123e4567-e89b-12d3-a456-426614174000"
      [("siren", "unique")]).2.1
      ⟨"d1", "123e4567-e89b-12d3-a456-426614174000",
        "http://example.com/data.csv", none, false, false⟩ (by decide),
    (C9_exception_insert getResource0 "nope" []).1 (by decide)⟩

/-- C10 (confirmed): in both `get_resource` and `get_resource_status`, a
path `resource_id` rejected by `uuid.UUID` gets a 400 with the JSON error
object (not a 404); when `uuid.UUID` accepts it and the catalog has no such
row, both answer 404; when a row exists, both answer 200. -/
theorem C10_uuid_gate (parseUUID : String → Except String String)
    (getResource : String → Option ResourceRec)
    (verbose : Option String → String) (schemeHost raw : String) :
    (∀ e, parseUUID raw = .error e →
        get_resource parseUUID getResource raw = ⟨400, .jsonError e⟩ ∧
          get_resource_status parseUUID getResource verbose schemeHost raw =
            ⟨400, .jsonError e⟩ ∧
          Body.isJson (.jsonError e) = true) ∧
    (∀ rid, parseUUID raw = .ok rid → getResource rid = none →
        get_resource parseUUID getResource raw = ⟨404, .emptyB⟩ ∧
          get_resource_status parseUUID getResource verbose schemeHost raw =
            ⟨404, .emptyB⟩) ∧
    (∀ rid rec, parseUUID raw = .ok rid → getResource rid = some rec →
        (get_resource parseUUID getResource raw).status = 200 ∧
          (get_resource_status parseUUID getResource verbose schemeHost
            raw).status = 200) := by
  refine ⟨?_, ?_, ?_⟩
  · intro e h
    unfold get_resource get_resource_status
    rw [h]
    exact ⟨rfl, rfl, rfl⟩
  · intro rid h hg
    unfold get_resource get_resource_status
    rw [h]
    dsimp only
    rw [hg]
    exact ⟨rfl, rfl⟩
  · intro rid rec h hg
    unfold get_resource get_resource_status
    rw [h]
    dsimp only
    rw [hg]
    exact ⟨rfl, rfl⟩

/-- Witness for C10 at concrete requests: a malformed id gets 400 with the
JSON error object from both handlers, a well-formed but unknown id gets
404 from both, and the known id gets 200 from both. -/
theorem C10_uuid_gate_witness :
    (get_resource parseUUID0 getResource0 "not-a-uuid" =
        ⟨400, .jsonError "badly formed hexadecimal UUID string"⟩ ∧
      get_resource_status parseUUID0 getResource0 (fun _ => "idle") "http://h"
          "not-a-uuid" =
        ⟨400, .jsonError "badly formed hexadecimal UUID string"⟩ ∧
      get_resource parseUUID0 (fun _ => none)
          "123e4567-e89b-12d3-a456-426614174000" = ⟨404, .emptyB⟩) ∧
      (get_resource parseUUID0 getResource0
        "123e4567-e89b-12d3-a456-426614174000").status = 200 := by
  have hbad := (C10_uuid_gate parseUUID0 getResource0 (fun _ => "idle")
      "http://h" "not-a-uuid").1 "badly formed hexadecimal UUID string" rfl
  have h404 := (C10_uuid_gate parseUUID0 (fun _ => none) (fun _ => "idle")
      "http://h" "123e4567-e89b-12d3-a456-426614174000").2.1
    "123e4567-e89b-12d3-a456-426614174000" rfl rfl
  have h200 := (C10_uuid_gate parseUUID0 getResource0 (fun _ => "idle")
      "http://h" "123e4567-e89b-12d3-a456-426614174000").2.2
    "123e4567-e89b-12d3-a456-426614174000"
    ⟨"d1", "123e4567-e89b-12d3-a456-426614174000",
      "http://example.com/data.csv", none, false, false⟩ rfl rfl
  exact ⟨⟨hbad.1, hbad.2.1, h404.1⟩, h200.1⟩

end Hydra
